import Mathlib

/-!
Shallow embedding of the downtime-tracker record store
(`src/database/downtimes.py`) and of the HTTP submission handler and shift
detector (`src/routes/downtime.py`).

Conventions of the embedding:
* Python dict values appearing in the `data` payloads are modelled by `PyVal`;
  `datetime` objects are modelled by their exact timestamp in seconds
  (an `Int`), which is all that subtraction and equality of `datetime`s use.
* The relational store is modelled in memory: the `Downtimes` table is a
  `List Row`.  `execute_query` connectivity failures (dead connection,
  reconnect) are environment nondeterminism outside the shallow embedding:
  the store is modelled as reachable, so DML statements commit and return
  `True`, exactly the non-degraded branch of `connection.execute_query`.
* Exceptions that escape a function are modelled by `PyResult.raised`;
  exceptions caught inside it are folded into its returned value.
* Python exception texts (the part interpolated via `str(e)`) are modelled
  without the `repr` quoting of the offending string.
-/

namespace DowntimeTracker

/-- A Python value as it occurs in the request/data dictionaries.
`dt secs` models a `datetime` object by its exact timestamp in seconds. -/
inductive PyVal where
  | none
  | bool (b : Bool)
  | int (n : Int)
  | str (s : String)
  | dt (secs : Int)
deriving DecidableEq, Repr

/-- Python truthiness (`bool(v)`) for the values of `PyVal`:
`None`, `False`, `0` and the empty string are falsy. -/
def PyVal.truthy : PyVal → Bool
  | .none => false
  | .bool b => b
  | .int n => decide (n ≠ 0)
  | .str s => decide (s ≠ "")
  | .dt _ => true

/-- A Python dict-shaped payload: an association list from key to value.
`lookup` returns the value of the first matching key, like a dict read. -/
abbrev Data := List (String × PyVal)

/-- `data[k]` for a key known to be present (`.none` as the unreachable
default); also models `data.get(k)` whose absent-key result is `None`. -/
def dataGet (data : Data) (k : String) : PyVal :=
  (data.lookup k).getD .none

/-- `data.get(k, dflt)`. -/
def dataGetD (data : Data) (k : String) (dflt : PyVal) : PyVal :=
  (data.lookup k).getD dflt

/-! ### The proleptic Gregorian calendar, as used by `datetime`

`datetime.fromisoformat` validates the civil date and the clock fields; the
conversion to an absolute timestamp below follows the day-numbering used by
CPython's `datetime` module (days counted from 0001-01-01). -/

/-- Gregorian leap-year test. -/
def isLeap (y : Nat) : Bool :=
  (y % 4 == 0 && y % 100 != 0) || (y % 400 == 0)

/-- Days in a month of a given year (months are 1-based). -/
def daysInMonth (y m : Nat) : Nat :=
  if m = 2 then (if isLeap y then 29 else 28)
  else if m = 4 ∨ m = 6 ∨ m = 9 ∨ m = 11 then 30
  else 31

/-- Days before January 1st of year `y`, counted from 0001-01-01
(CPython's `_days_before_year`). -/
def daysBeforeYear (y : Nat) : Nat :=
  365 * (y - 1) + ((y - 1) / 4 + (y - 1) / 400) - (y - 1) / 100

/-- Cumulative days before month `m` in a non-leap year. -/
def daysBeforeMonth : Nat → Nat
  | 1 => 0 | 2 => 31 | 3 => 59 | 4 => 90 | 5 => 120 | 6 => 151
  | 7 => 181 | 8 => 212 | 9 => 243 | 10 => 273 | 11 => 304 | 12 => 334
  | _ => 0

/-- Absolute timestamp, in seconds, of the civil datetime
`y-m-d h:mi:s` (day 0 is 0001-01-01). -/
def civilToSeconds (y m d h mi s : Nat) : Int :=
  let days := daysBeforeYear y + daysBeforeMonth m
    + (if 2 < m ∧ isLeap y then 1 else 0) + (d - 1)
  (days : Int) * 86400 + (h : Int) * 3600 + (mi : Int) * 60 + (s : Int)

/-- The numeric value of a decimal digit character, if it is one. -/
def digitVal (c : Char) : Option Nat :=
  if c.isDigit then some (c.toNat - 48) else Option.none

/-- The value of a fixed-width run of decimal digits. -/
def digitsVal : List Char → Option Nat
  | [] => some 0
  | c :: cs =>
    match digitVal c, digitsVal cs with
    | some d, some v => some (d * 10 ^ cs.length + v)
    | _, _ => Option.none

/-- Validates the parsed civil fields and converts them to seconds
(`datetime` accepts years 1..9999 and rejects out-of-range fields). -/
def checkedCivil (y m d h mi s : Nat) : Option Int :=
  if 1 ≤ y ∧ y ≤ 9999 ∧ 1 ≤ m ∧ m ≤ 12 ∧ 1 ≤ d ∧ d ≤ daysInMonth y m
      ∧ h ≤ 23 ∧ mi ≤ 59 ∧ s ≤ 59 then
    some (civilToSeconds y m d h mi s)
  else Option.none

/-- Models `datetime.fromisoformat`: accepts `YYYY-MM-DD`, optionally
followed by a one-character separator and `HH:MM` or `HH:MM:SS`
(fractional seconds and timezone offsets are not used by this program and
are not modelled).  Returns `none` where CPython raises `ValueError`. -/
def fromisoformat (str : String) : Option Int :=
  match str.toList with
  | [y1, y2, y3, y4, '-', m1, m2, '-', d1, d2] =>
    match digitsVal [y1, y2, y3, y4], digitsVal [m1, m2], digitsVal [d1, d2] with
    | some y, some m, some d => checkedCivil y m d 0 0 0
    | _, _, _ => Option.none
  | [y1, y2, y3, y4, '-', m1, m2, '-', d1, d2, _, h1, h2, ':', n1, n2] =>
    match digitsVal [y1, y2, y3, y4], digitsVal [m1, m2], digitsVal [d1, d2],
        digitsVal [h1, h2], digitsVal [n1, n2] with
    | some y, some m, some d, some h, some mi => checkedCivil y m d h mi 0
    | _, _, _, _, _ => Option.none
  | [y1, y2, y3, y4, '-', m1, m2, '-', d1, d2, _, h1, h2, ':', n1, n2, ':', s1, s2] =>
    match digitsVal [y1, y2, y3, y4], digitsVal [m1, m2], digitsVal [d1, d2],
        digitsVal [h1, h2], digitsVal [n1, n2], digitsVal [s1, s2] with
    | some y, some m, some d, some h, some mi, some s => checkedCivil y m d h mi s
    | _, _, _, _, _, _ => Option.none
  | _ => Option.none

/-! ### Datetime operands and duration computation -/

/-- The value a `start_time`/`end_time` dict entry resolves to before the
subtraction: a usable datetime, a string `fromisoformat` rejects
(a `ValueError`), or a non-datetime non-string value passed through. -/
inductive TimeVal where
  | parsed (t : Int)
  | parseFail (s : String)
  | raw (v : PyVal)
deriving DecidableEq, Repr

/-- Resolves a dict value the way both `create` and `update` do:
strings go through `fromisoformat`, `datetime` objects are used as-is,
anything else is kept raw (its subtraction will raise). -/
def timeValOf : PyVal → TimeVal
  | .str s =>
    match fromisoformat s with
    | some t => .parsed t
    | Option.none => .parseFail s
  | .dt t => .parsed t
  | v => .raw v

/-- Outcome of `(end - start).total_seconds()` on resolved operands. -/
inductive SubOut where
  | secs (n : Int)
  | typeErr
  | attrErr
deriving DecidableEq, Repr

/-- Whether a raw (non-datetime) operand is numeric (`int` or `bool`):
subtracting two numerics yields a number, whose missing `total_seconds`
attribute raises `AttributeError`; mixing a numeric or `None` with a
`datetime` raises `TypeError` at the subtraction itself. -/
def PyVal.numeric : PyVal → Bool
  | .int _ => true
  | .bool _ => true
  | _ => false

/-- Models `(end - start).total_seconds()`; `TypeError` is caught by
`create`'s `except` clause, `AttributeError` is not. -/
def pySubSeconds : TimeVal → TimeVal → SubOut
  | .parsed e, .parsed s => .secs (e - s)
  | .raw a, .raw b => if a.numeric && b.numeric then .attrErr else .typeErr
  | _, _ => .typeErr

/-- `int(secs / 60)`: float division then conversion to `int`, which
truncates toward zero (the division is exact in float for these ranges). -/
def durationMinutesOf (secs : Int) : Int :=
  if 0 ≤ secs then (secs.toNat / 60 : Nat) else -((((-secs).toNat) / 60 : Nat) : Int)

/-- The result of running a Python function: a returned value, or an
uncaught exception propagating out of it. -/
inductive PyResult (α : Type) where
  | ok (a : α)
  | raised (msg : String)
deriving DecidableEq, Repr

/-! ### The `Downtimes` table

One row of the `Downtimes` table, with exactly the columns this code reads
and writes.  `get_by_id` additionally joins display-name columns from the
reference tables; under the data model's referential-integrity invariant
those `INNER JOIN`s filter nothing and only attach names, so they are
elided here. -/

structure Row where
  downtime_id : Nat
  line_id : PyVal
  category_id : PyVal
  shift_id : PyVal
  start_time : Int
  end_time : Int
  duration_minutes : Int
  reason_notes : PyVal
  entered_by : PyVal
  entered_date : Int
  created_by : PyVal
  created_date : Int
  is_deleted : Bool
  modified_by : Option String
  modified_date : Option Int
deriving DecidableEq, Repr

/-- The `Downtimes` table. -/
abbrev State := List Row

/-- `DowntimesDB.get_by_id`: the first row with this id that is not
soft-deleted (`WHERE d.downtime_id = ? AND d.is_deleted = 0`). -/
def get_by_id (st : State) (id : Nat) : Option Row :=
  st.find? fun r => decide (r.downtime_id = id) && !r.is_deleted

/-- The id the database assigns to a newly inserted row: one past the
largest id in the table (ids are an identity column). -/
def nextId (st : State) : Nat :=
  (st.map Row.downtime_id).foldr max 0 + 1

/-- The `SELECT TOP 1 downtime_id ... WHERE entered_by = ? ORDER BY
downtime_id DESC` read-back `create` uses to report the new id: the largest
id among this user's rows (soft-deleted rows included, there is no
`is_deleted` filter in that query). -/
def lastIdStep (user : PyVal) (r : Row) (acc : Option Nat) : Option Nat :=
  if r.entered_by = user then
    some (match acc with
      | Option.none => r.downtime_id
      | some m => max r.downtime_id m)
  else acc

/-- See `lastIdStep`: the running maximum over the rows of the user. -/
def lastIdFor (st : State) (user : PyVal) : Option Nat :=
  st.foldr (lastIdStep user) Option.none

/-- The required-field scan of `DowntimesDB.create`, in source order:
the first required key that is absent or bound to a falsy value. -/
def requiredFields : List String :=
  ["line_id", "category_id", "start_time", "end_time", "entered_by"]

/-- `for field in required: if field not in data or not data[field]` —
the first offender, if any. -/
def missingRequired (data : Data) : Option String :=
  requiredFields.find? fun f =>
    match data.lookup f with
    | some v => !v.truthy
    | Option.none => true

/-- `DowntimesDB.create`.  Returns the `(success, message, downtime_id)`
tuple (or an uncaught exception) together with the table after the call.
The `try` block catches `ValueError` and `TypeError` only. -/
def create (st : State) (now : Int) (data : Data) :
    PyResult (Bool × String × Option Nat) × State :=
  match missingRequired data with
  | some f => (.ok (false, "Missing required field: " ++ f, Option.none), st)
  | Option.none =>
    match timeValOf (dataGet data "start_time") with
    | .parseFail s =>
      (.ok (false, "Invalid datetime format: Invalid isoformat string: " ++ s,
        Option.none), st)
    | sv =>
      match timeValOf (dataGet data "end_time") with
      | .parseFail s =>
        (.ok (false, "Invalid datetime format: Invalid isoformat string: " ++ s,
          Option.none), st)
      | ev =>
        match sv, ev with
        | .parsed ts, .parsed te =>
          let d := durationMinutesOf (te - ts)
          if d ≤ 0 then
            (.ok (false, "End time must be after start time", Option.none), st)
          else if 1440 < d then
            (.ok (false, "Downtime duration cannot exceed 24 hours", Option.none), st)
          else
            let row : Row :=
              { downtime_id := nextId st
                line_id := dataGet data "line_id"
                category_id := dataGet data "category_id"
                shift_id := dataGetD data "shift_id" .none
                start_time := ts
                end_time := te
                duration_minutes := d
                reason_notes := dataGetD data "reason_notes" (.str "")
                entered_by := dataGet data "entered_by"
                entered_date := now
                created_by := dataGet data "entered_by"
                created_date := now
                is_deleted := false
                modified_by := Option.none
                modified_date := Option.none }
            let st' := st ++ [row]
            (.ok (true,
              "Downtime entry created (" ++ toString d ++ " minutes)",
              lastIdFor st' (dataGet data "entered_by")), st')
        | sv', ev' =>
          -- at least one operand is a raw non-datetime, so the subtraction
          -- (or the `total_seconds` call on its numeric result) raises
          match pySubSeconds ev' sv' with
          | .attrErr => (.raised "AttributeError: total_seconds", st)
          | _ =>
            (.ok (false,
              "Invalid datetime format: unsupported operand type for subtraction",
              Option.none), st)

/-! ### `DowntimesDB.update` -/

/-- The staging test `update` applies to `line_id`, `category_id`,
`shift_id` and `reason_notes`: if the key is supplied and its value differs
from the current one, the new value is staged.  (For `reason_notes` the
source reads both sides through `.get(..., '')`; the row dict always has
the key, and inside `if 'reason_notes' in data` so does the payload, so the
defaults are inert.) -/
def stageField (cur : PyVal) (key : String) (data : Data) : Option PyVal :=
  match data.lookup key with
  | some v => if v ≠ cur then some v else Option.none
  | Option.none => Option.none

/-- The staging of `start_time`/`end_time` in `update`: a supplied string
goes through `datetime.fromisoformat` with NO surrounding `try` — a parse
failure propagates as a `ValueError`.  A supplied non-string non-datetime
value compares unequal to the current `datetime`, so it counts as changed
(its subtraction will raise later).  Returns the resulting operand and the
`start_changed`/`end_changed` flag. -/
def stagedTime (cur : Int) (key : String) (data : Data) :
    PyResult (TimeVal × Bool) :=
  match data.lookup key with
  | Option.none => .ok (.parsed cur, false)
  | some v =>
    match timeValOf v with
    | .parseFail s => .raised ("ValueError: Invalid isoformat string: " ++ s)
    | .parsed t => .ok (.parsed t, decide (t ≠ cur))
    | .raw w => .ok (.raw w, true)

/-- The value of a resolved time operand (the default is only read on
paths `update` has already abandoned by raising). -/
def timeValGet (tv : TimeVal) (dflt : Int) : Int :=
  match tv with
  | .parsed t => t
  | _ => dflt

/-- The tail of `update` after duration validation: stages the plain
fields, collects the change diff, and either reports "no changes" or
executes the `UPDATE ... WHERE downtime_id = ? AND is_deleted = 0`.
The source's diff maps each field name to its `{old, new}` pair; the
claims depend only on which fields are in the diff, so the diff is
modelled as the list of staged field names, in source order. -/
def applyUpdate (st : State) (id : Nat) (cur : Row) (data : Data)
    (username : String) (now : Int) (ns ne : TimeVal)
    (sChanged eChanged : Bool) (durStage : Option Int) :
    PyResult (Bool × String × Option (List String)) × State :=
  let lineS := stageField cur.line_id "line_id" data
  let catS := stageField cur.category_id "category_id" data
  let shiftS := stageField cur.shift_id "shift_id" data
  let notesS := stageField cur.reason_notes "reason_notes" data
  let changes : List String :=
    (if lineS.isSome then ["line_id"] else [])
    ++ (if catS.isSome then ["category_id"] else [])
    ++ (if shiftS.isSome then ["shift_id"] else [])
    ++ (if sChanged then ["start_time"] else [])
    ++ (if eChanged then ["end_time"] else [])
    ++ (if durStage.isSome then ["duration_minutes"] else [])
    ++ (if notesS.isSome then ["reason_notes"] else [])
  if changes.isEmpty then
    (.ok (true, "No changes detected", Option.none), st)
  else
    let nsv := timeValGet ns cur.start_time
    let nev := timeValGet ne cur.end_time
    let st' := st.map fun r =>
      if decide (r.downtime_id = id) && !r.is_deleted then
        { r with
          line_id := lineS.getD r.line_id
          category_id := catS.getD r.category_id
          shift_id := shiftS.getD r.shift_id
          start_time := if sChanged then nsv else r.start_time
          end_time := if eChanged then nev else r.end_time
          duration_minutes := durStage.getD r.duration_minutes
          reason_notes := notesS.getD r.reason_notes
          modified_by := some username
          modified_date := some now }
      else r
    (.ok (true, "Downtime entry updated successfully", some changes), st')

/-- `DowntimesDB.update`: loads the current non-deleted record, stages the
supplied fields, recomputes and re-validates the duration when a time
bound changed, and writes all staged fields plus the `modified_by` /
`modified_date` stamps in one statement — or returns early with no write. -/
def update (st : State) (id : Nat) (data : Data) (username : String)
    (now : Int) : PyResult (Bool × String × Option (List String)) × State :=
  match get_by_id st id with
  | Option.none => (.ok (false, "Downtime entry not found", Option.none), st)
  | some cur =>
    match stagedTime cur.start_time "start_time" data,
        stagedTime cur.end_time "end_time" data with
    | .raised e, _ => (.raised e, st)
    | .ok _, .raised e => (.raised e, st)
    | .ok (ns, sChanged), .ok (ne, eChanged) =>
      if sChanged || eChanged then
        match ns, ne with
        | .parsed a, .parsed b =>
          let dm := durationMinutesOf (b - a)
          if dm ≤ 0 then
            (.ok (false, "End time must be after start time", Option.none), st)
          else if 1440 < dm then
            (.ok (false, "Downtime duration cannot exceed 24 hours", Option.none), st)
          else
            applyUpdate st id cur data username now ns ne sChanged eChanged (some dm)
        | _, _ =>
          (.raised "TypeError: unsupported operand type for subtraction", st)
      else
        applyUpdate st id cur data username now ns ne sChanged eChanged Option.none

/-! ### `DowntimesDB.delete` / `DowntimesDB.restore` -/

/-- The row transformation of `delete`'s `UPDATE ... WHERE downtime_id = ?`
(no `is_deleted` condition, so it also runs on already-deleted rows). -/
def delMark (id : Nat) (username : String) (now : Int) (r : Row) : Row :=
  if decide (r.downtime_id = id) then
    { r with is_deleted := true
             modified_by := some username
             modified_date := some now }
  else r

/-- The row transformation of `restore`'s `UPDATE`. -/
def resMark (id : Nat) (username : String) (now : Int) (r : Row) : Row :=
  if decide (r.downtime_id = id) then
    { r with is_deleted := false
             modified_by := some username
             modified_date := some now }
  else r

/-- `DowntimesDB.delete`: soft delete; stamps `modified_by` /
`modified_date`. -/
def deleteEntry (st : State) (id : Nat) (username : String) (now : Int) :
    (Bool × String) × State :=
  ((true, "Downtime entry deleted"), st.map (delMark id username now))

/-- `DowntimesDB.restore`: clears the soft-delete flag; stamps
`modified_by`/`modified_date`. -/
def restoreEntry (st : State) (id : Nat) (username : String) (now : Int) :
    (Bool × String) × State :=
  ((true, "Downtime entry restored"), st.map (resMark id username now))

/-! ### `DowntimesDB.get_summary` -/

/-- A `DowntimeCategories` reference row (the columns `get_summary` uses). -/
structure Category where
  category_id : PyVal
  category_name : String
deriving DecidableEq, Repr

/-- A `ProductionLines` reference row (the columns `get_summary` uses). -/
structure ProdLine where
  line_id : PyVal
  facility_id : PyVal
  line_name : String
deriving DecidableEq, Repr

/-- A `Facilities` reference row (the columns `get_summary` uses). -/
structure Facility where
  facility_id : PyVal
  facility_name : String
deriving DecidableEq, Repr

/-- The database as `get_summary` sees it: the `Downtimes` table plus the
reference tables it joins. -/
structure DB where
  downtimes : State
  categories : List Category
  lines : List ProdLine
  facilities : List Facility
deriving Repr

/-- One result row of `get_summary`: the grouping key (plus the owning
facility name when grouping by line) and the aggregates. -/
structure SummaryRow where
  grouping : String
  facility_name : Option String
  event_count : Nat
  total_minutes : Int
  avg_minutes : Int
  min_minutes : Int
  max_minutes : Int
deriving DecidableEq, Repr

/-- The `WHERE` clause shared by all three summary queries:
`start_time >= start_date AND end_time <= end_date AND is_deleted = 0`. -/
def summaryRows (db : DB) (startDate endDate : Int) : List Row :=
  db.downtimes.filter fun r =>
    decide (startDate ≤ r.start_time) && decide (r.end_time ≤ endDate)
      && !r.is_deleted

/-- `INNER JOIN DowntimeCategories`: the category name of a row, if any. -/
def categoryNameOf (db : DB) (cid : PyVal) : Option String :=
  (db.categories.find? fun c => decide (c.category_id = cid)).map
    Category.category_name

/-- `INNER JOIN ProductionLines`: the line row a downtime joins to. -/
def lineOf (db : DB) (lid : PyVal) : Option ProdLine :=
  db.lines.find? fun l => decide (l.line_id = lid)

/-- `INNER JOIN Facilities` through the line. -/
def facilityNameOf (db : DB) (fid : PyVal) : Option String :=
  (db.facilities.find? fun f => decide (f.facility_id = fid)).map
    Facility.facility_name

/-- `COUNT/SUM/AVG/MIN/MAX(duration_minutes)` over one group.  SQL Server's
`AVG` on an integer column divides with truncation. -/
def aggregate (grouping : String) (fac : Option String) (ds : List Int) :
    SummaryRow :=
  let total := ds.foldr (· + ·) 0
  { grouping := grouping
    facility_name := fac
    event_count := ds.length
    total_minutes := total
    avg_minutes := Int.tdiv total ds.length
    min_minutes := ds.foldr min (ds.headD 0)
    max_minutes := ds.foldr max (ds.headD 0) }

/-- Stable insertion sort realizing `ORDER BY total_minutes DESC`. -/
def sortByTotalDesc (l : List SummaryRow) : List SummaryRow :=
  l.foldr insertDesc []
where
  insertDesc (x : SummaryRow) : List SummaryRow → List SummaryRow
    | [] => [x]
    | y :: ys =>
      if y.total_minutes < x.total_minutes then x :: y :: ys
      else y :: insertDesc x ys

/-- `GROUP BY` on a list of (key, duration) pairs: one aggregate per
distinct key, keys in first-occurrence order (then sorted). -/
def groupAggregate (pairs : List ((String × Option String) × Int)) :
    List SummaryRow :=
  let keys := (pairs.map Prod.fst).dedup
  sortByTotalDesc <| keys.map fun k =>
    aggregate k.1 k.2 ((pairs.filter fun p => p.1 = k).map Prod.snd)

/-- The `group_by = 'category'` query of `get_summary`. -/
def summaryByCategory (db : DB) (startDate endDate : Int) : List SummaryRow :=
  groupAggregate <| (summaryRows db startDate endDate).filterMap fun r =>
    (categoryNameOf db r.category_id).map fun n =>
      ((n, Option.none), r.duration_minutes)

/-- The `group_by = 'facility'` query of `get_summary`. -/
def summaryByFacility (db : DB) (startDate endDate : Int) : List SummaryRow :=
  groupAggregate <| (summaryRows db startDate endDate).filterMap fun r =>
    (lineOf db r.line_id).bind fun l =>
      (facilityNameOf db l.facility_id).map fun n =>
        ((n, Option.none), r.duration_minutes)

/-- The `group_by = 'line'` query of `get_summary` (the grouping key is
`(line_name, facility_name)` and the facility name is carried along). -/
def summaryByLine (db : DB) (startDate endDate : Int) : List SummaryRow :=
  groupAggregate <| (summaryRows db startDate endDate).filterMap fun r =>
    (lineOf db r.line_id).bind fun l =>
      (facilityNameOf db l.facility_id).map fun n =>
        ((l.line_name, some n), r.duration_minutes)

/-- `DowntimesDB.get_summary`: dispatches on `group_by`; any value outside
the three recognized ones falls through to the recursive call
`self.get_summary(start_date, end_date, 'category')`. -/
def get_summary (db : DB) (startDate endDate : Int) (group_by : String) :
    List SummaryRow :=
  if hc : group_by = "category" then summaryByCategory db startDate endDate
  else if group_by = "facility" then summaryByFacility db startDate endDate
  else if group_by = "line" then summaryByLine db startDate endDate
  else get_summary db startDate endDate "category"
termination_by (if group_by = "category" then 0 else 1)
decreasing_by simp [hc]

/-! ### Shift detection (`routes/downtime.py`, `entry_form`) -/

/-- A `Shifts` reference row as the detector consumes it.  In the source
`start_time`/`end_time` are `'HH:MM'` strings parsed with
`datetime.strptime(..., '%H:%M').time()`; the fields here hold the parsed
time-of-day in seconds since midnight. -/
structure Shift where
  shift_id : Nat
  shift_name : String
  start_time : Nat
  end_time : Nat
  is_overnight : Bool
deriving DecidableEq, Repr

/-- The containment test of the detection loop: a regular shift contains
`tod` iff `start_time <= tod < end_time`; an overnight shift wraps
midnight and contains `tod` iff `tod >= start_time or tod < end_time`.
`tod` is the time-of-day of `datetime.now()`, in seconds. -/
def shiftMatches (tod : Nat) (sh : Shift) : Bool :=
  if sh.is_overnight then
    decide (sh.start_time ≤ tod) || decide (tod < sh.end_time)
  else
    decide (sh.start_time ≤ tod) && decide (tod < sh.end_time)

/-- The `for shift in shifts: ... break` loop of `entry_form`: the first
active shift (in retrieval order) containing the timestamp, else `None`. -/
def detectShift (shifts : List Shift) (tod : Nat) : Option Shift :=
  shifts.find? (shiftMatches tod)

/-! ### The submission route (`routes/downtime.py`, `submit_downtime`) -/

/-- Strips leading and trailing whitespace from a character list. -/
def stripWs (cs : List Char) : List Char :=
  ((cs.dropWhile Char.isWhitespace).reverse.dropWhile Char.isWhitespace).reverse

/-- `int(s)` on a string: optional surrounding whitespace, an optional
sign, then decimal digits; anything else raises `ValueError` (modelled as
`none`).  (CPython also allows digit-group underscores; unused here.) -/
def pyInt (s : String) : Option Int :=
  match stripWs s.toList with
  | [] => Option.none
  | '-' :: ds =>
    if ds ≠ [] ∧ ds.all Char.isDigit then (digitsVal ds).map (fun n => -(n : Int))
    else Option.none
  | '+' :: ds =>
    if ds ≠ [] ∧ ds.all Char.isDigit then (digitsVal ds).map (fun n => (n : Int))
    else Option.none
  | ds =>
    if ds.all Char.isDigit then (digitsVal ds).map (fun n => (n : Int))
    else Option.none

/-- An HTML form payload: `request.form`, keys to string values. -/
abbrev Form := List (String × String)

/-- Truthiness of `request.form.get(key)`: `None` (absent) and the empty
string are falsy. -/
def formTruthy (o : Option String) : Bool :=
  match o with
  | some s => decide (s ≠ "")
  | Option.none => false

/-- The `if not all([facility_id, line_id, category_id, start_time,
end_time])` check of `submit_downtime`. -/
def submitRequiredOk (form : Form) : Bool :=
  formTruthy (form.lookup "facility_id") && formTruthy (form.lookup "line_id")
    && formTruthy (form.lookup "category_id")
    && formTruthy (form.lookup "start_time")
    && formTruthy (form.lookup "end_time")

/-- `request.form.get('crew_size', '1')`. -/
def crewStr (form : Form) : String :=
  (form.lookup "crew_size").getD "1"

/-- The continuation of `submit_downtime` after the crew-size check
passed: builds the `data` dict (including the accepted `crew_size`),
calls `DowntimesDB.create`, and wraps its outcome in the route's JSON
reply.  The audit log call on success touches only the external audit
store.  The route's outer `except` turns an escaped exception into the
generic failure reply. -/
def submitAfterCrew (st : State) (now : Int) (form : Form)
    (username : String) (crew : Int) : (Bool × String × Option Nat) × State :=
  let data : Data :=
    [("line_id", .str ((form.lookup "line_id").getD "")),
     ("category_id", .str ((form.lookup "category_id").getD "")),
     ("shift_id", match form.lookup "shift_id" with
       | some s => .str s
       | Option.none => .none),
     ("start_time", .str ((form.lookup "start_time").getD "")),
     ("end_time", .str ((form.lookup "end_time").getD "")),
     ("crew_size", .int crew),
     ("reason_notes", .str (((form.lookup "comments").getD "").trim)),
     ("entered_by", .str username)]
  match create st now data with
  | (.ok (true, _, did), st') =>
    ((true, "Downtime entry submitted successfully!", did), st')
  | (.ok (false, msg, _), st') => ((false, msg, Option.none), st')
  | (.raised _, st') =>
    ((false, "An error occurred while submitting", Option.none), st')

/-- `submit_downtime` (the body after the login check): required-field
check, then the crew-size check, then record creation. -/
def submit_downtime (st : State) (now : Int) (form : Form)
    (username : String) : (Bool × String × Option Nat) × State :=
  if !submitRequiredOk form then
    ((false, "All required fields must be filled", Option.none), st)
  else
    match pyInt (crewStr form) with
    | Option.none => ((false, "Crew size must be a number", Option.none), st)
    | some n =>
      if decide (n < 1) || decide (10 < n) then
        ((false, "Crew size must be between 1 and 10", Option.none), st)
      else
        submitAfterCrew st now form username n

/-! ### Spec-side definition for the duration refinement comparison -/

/-- Follows the spec's words, for comparison only: `durationMinutes` is
"always round((endTime-startTime) in seconds / 60)" — rounding to the
nearest minute.  The source computes a truncation instead. -/
def specDurationMinutes (startT endT : Int) : Int :=
  round (((endT - startT : Int) : ℚ) / 60)

/-! ### Concrete sample data for witnesses and counterexamples -/

/-- A create payload whose span is 90 seconds (start and end given as
`datetime` values, as `create` accepts). -/
def data90 : Data :=
  [("line_id", .int 1), ("category_id", .int 2), ("start_time", .dt 0),
   ("end_time", .dt 90), ("entered_by", .str "u")]

/-- A create payload whose span is 30 seconds: `end > start` and well
under 24 hours. -/
def data30 : Data :=
  [("line_id", .int 1), ("category_id", .int 2), ("start_time", .dt 0),
   ("end_time", .dt 30), ("entered_by", .str "u")]

/-- A create payload spanning 45 minutes. -/
def data45 : Data :=
  [("line_id", .int 1), ("category_id", .int 2), ("start_time", .dt 0),
   ("end_time", .dt 2700), ("entered_by", .str "u")]

/-- A stored, non-deleted 45-minute record with id 1. -/
def sampleRow : Row :=
  { downtime_id := 1
    line_id := .int 1
    category_id := .int 2
    shift_id := .none
    start_time := 0
    end_time := 2700
    duration_minutes := 45
    reason_notes := .str ""
    entered_by := .str "u"
    entered_date := 0
    created_by := .str "u"
    created_date := 0
    is_deleted := false
    modified_by := Option.none
    modified_date := Option.none }

/-! ### Helper lemmas -/

theorem le_foldr_max (l : List Nat) (x : Nat) (hx : x ∈ l) :
    x ≤ l.foldr max 0 := by
  induction l with
  | nil => cases hx
  | cons h t ih =>
    rcases List.mem_cons.mp hx with rfl | hxt
    · exact le_max_left _ _
    · exact le_trans (ih hxt) (le_max_right _ _)

theorem id_lt_nextId (st : State) (r : Row) (hr : r ∈ st) :
    r.downtime_id < nextId st := by
  have := le_foldr_max (st.map Row.downtime_id) r.downtime_id
    (List.mem_map_of_mem Row.downtime_id hr)
  simp only [nextId]
  omega

theorem foldr_lastIdStep_const (st : State) (user : PyVal) (k : Nat)
    (h : ∀ r ∈ st, r.downtime_id < k) :
    st.foldr (lastIdStep user) (some k) = some k := by
  induction st with
  | nil => rfl
  | cons r t ih =>
    have hr : r.downtime_id < k := h r (List.mem_cons_self r t)
    have ht : t.foldr (lastIdStep user) (some k) = some k :=
      ih fun x hx => h x (List.mem_cons_of_mem r hx)
    simp only [List.foldr_cons, ht, lastIdStep]
    split
    · simp [Nat.max_eq_right (le_of_lt hr)]
    · rfl

theorem lastIdFor_append_big (st : State) (row : Row) (user : PyVal)
    (hu : row.entered_by = user)
    (hbig : ∀ r ∈ st, r.downtime_id < row.downtime_id) :
    lastIdFor (st ++ [row]) user = some row.downtime_id := by
  unfold lastIdFor
  rw [List.foldr_append]
  have hstep : List.foldr (lastIdStep user) Option.none [row]
      = some row.downtime_id := by
    simp [lastIdStep, hu]
  rw [hstep]
  exact foldr_lastIdStep_const st user row.downtime_id hbig

/-- Shared shape lemma: a create whose required fields pass, whose bounds
resolve to timestamps `a`, `b`, and whose truncated duration lies in
`[1, 1440]` returns success with the truncated duration in the message and
appends exactly one fully determined row. -/
theorem create_success_eq (st : State) (now : Int) (data : Data)
    (a b : Int)
    (hreq : missingRequired data = Option.none)
    (hs : timeValOf (dataGet data "start_time") = .parsed a)
    (he : timeValOf (dataGet data "end_time") = .parsed b)
    (hlo : 1 ≤ durationMinutesOf (b - a))
    (hhi : durationMinutesOf (b - a) ≤ 1440) :
    create st now data =
      (.ok (true,
          "Downtime entry created (" ++ toString (durationMinutesOf (b - a))
            ++ " minutes)",
          some (nextId st)),
        st ++ [{ downtime_id := nextId st
                 line_id := dataGet data "line_id"
                 category_id := dataGet data "category_id"
                 shift_id := dataGetD data "shift_id" .none
                 start_time := a
                 end_time := b
                 duration_minutes := durationMinutesOf (b - a)
                 reason_notes := dataGetD data "reason_notes" (.str "")
                 entered_by := dataGet data "entered_by"
                 entered_date := now
                 created_by := dataGet data "entered_by"
                 created_date := now
                 is_deleted := false
                 modified_by := Option.none
                 modified_date := Option.none }]) := by
  have hd0 : ¬ (durationMinutesOf (b - a) ≤ 0) := by omega
  have hd1 : ¬ (1440 < durationMinutesOf (b - a)) := by omega
  simp only [create, hreq, hs, he, hd0, hd1, if_false, ite_false]
  rw [lastIdFor_append_big st _ (dataGet data "entered_by") rfl
    (fun r hr => id_lt_nextId st r hr)]

/-! ### Claim theorems -/

/-- C1 (counterexample): on a 90-second span, `create` succeeds but
persists and reports `durationMinutes = 1` — the truncation of 1.5 minutes
— where the claim's `round((end-start).seconds/60)` is 2; and a 30-second
span (`end > start`, far below 24 hours) is rejected outright instead of
succeeding as the claim demands. -/
theorem C1_round_counterexample :
    (create [] 7 data90).1
        = .ok (true, "Downtime entry created (1 minutes)", some 1)
      ∧ (create [] 7 data90).2.map Row.duration_minutes = [1]
      ∧ specDurationMinutes 0 90 = 2
      ∧ (create [] 7 data90).2.map Row.duration_minutes
          ≠ [specDurationMinutes 0 90]
      ∧ (create [] 7 data30).1
          = .ok (false, "End time must be after start time", Option.none) := by
  refine ⟨by decide, by decide, ?_, ?_, by decide⟩
  · norm_num [specDurationMinutes, round_eq]
  · intro h
    rw [show specDurationMinutes 0 90 = 2 from by
      norm_num [specDurationMinutes, round_eq]] at h
    exact absurd h (by decide)

/-- C1 (amended): for every create payload whose required fields pass the
truthiness scan and whose start/end resolve to timestamps `a`, `b`, with
the truncated duration `int((b-a)/60)` in `[1, 1440]`, `create` succeeds,
reports the truncated duration in its message, and persists it — i.e. the
duration is the truncation toward zero of the span in minutes, not its
rounding, and sub-minute spans are rejected rather than created. -/
theorem C1_create_duration (st : State) (now : Int) (data : Data)
    (a b : Int)
    (hreq : missingRequired data = Option.none)
    (hs : timeValOf (dataGet data "start_time") = .parsed a)
    (he : timeValOf (dataGet data "end_time") = .parsed b)
    (hlo : 1 ≤ durationMinutesOf (b - a))
    (hhi : durationMinutesOf (b - a) ≤ 1440) :
    create st now data =
      (.ok (true,
          "Downtime entry created (" ++ toString (durationMinutesOf (b - a))
            ++ " minutes)",
          some (nextId st)),
        st ++ [{ downtime_id := nextId st
                 line_id := dataGet data "line_id"
                 category_id := dataGet data "category_id"
                 shift_id := dataGetD data "shift_id" .none
                 start_time := a
                 end_time := b
                 duration_minutes := durationMinutesOf (b - a)
                 reason_notes := dataGetD data "reason_notes" (.str "")
                 entered_by := dataGet data "entered_by"
                 entered_date := now
                 created_by := dataGet data "entered_by"
                 created_date := now
                 is_deleted := false
                 modified_by := Option.none
                 modified_date := Option.none }]) :=
  create_success_eq st now data a b hreq hs he hlo hhi

/-- C1 (witness for the amended theorem): the 45-minute sample payload. -/
theorem C1_create_duration_witness :
    create [] 11 data45 =
      (.ok (true, "Downtime entry created (45 minutes)", some 1),
        [{ downtime_id := 1
           line_id := .int 1
           category_id := .int 2
           shift_id := .none
           start_time := 0
           end_time := 2700
           duration_minutes := 45
           reason_notes := .str ""
           entered_by := .str "u"
           entered_date := 11
           created_by := .str "u"
           created_date := 11
           is_deleted := false
           modified_by := Option.none
           modified_date := Option.none }]) := by
  have h := C1_create_duration [] 11 data45 0 2700 (by decide) (by decide)
    (by decide) (by decide) (by decide)
  simpa using h

/-- C2 (code bug): in `update`, a malformed `start_time` string is fed to
`datetime.fromisoformat` outside any `try`, so the `ValueError` escapes
`update` instead of being returned as `(False, message, None)` — while the
identical input to `create` is caught and folded into exactly that tuple
shape, as the spec's error-handling contract demands for both. -/
theorem C2_update_raises_on_malformed_time :
    update [sampleRow] 1 [("start_time", PyVal.str "garbage")] "admin" 99
        = (.raised "ValueError: Invalid isoformat string: garbage", [sampleRow])
      ∧ (create [] 0
          [("line_id", .int 1), ("category_id", .int 2),
           ("start_time", .str "garbage"), ("end_time", .str "garbage"),
           ("entered_by", .str "u")]).1
          = .ok (false,
              "Invalid datetime format: Invalid isoformat string: garbage",
              Option.none) := by
  exact ⟨by decide, by decide⟩

/-- C3: for an existing non-deleted record, when an update stages a start
and/or end time (new value where staged, current value where not — the
`stagedTime` hypotheses are exactly `update`'s own staging computation)
and the recomputed duration over the resulting pair is out of bounds
(`<= 0` or `> 1440`), the whole update fails with the corresponding
message, the diff is `None`, and the returned table is the input table:
no staged field, no `modified_by`, no `modified_date` is persisted. -/
theorem C3_update_aborts_whole (st : State) (id : Nat) (data : Data)
    (u : String) (now : Int) (r : Row) (a b : Int) (sc ec : Bool)
    (hcur : get_by_id st id = some r)
    (hs : stagedTime r.start_time "start_time" data = .ok (.parsed a, sc))
    (he : stagedTime r.end_time "end_time" data = .ok (.parsed b, ec))
    (hch : (sc || ec) = true)
    (hbad : durationMinutesOf (b - a) ≤ 0 ∨ 1440 < durationMinutesOf (b - a)) :
    update st id data u now =
      (.ok (false,
        (if durationMinutesOf (b - a) ≤ 0 then "End time must be after start time"
         else "Downtime duration cannot exceed 24 hours"),
        Option.none), st) := by
  rcases hbad with hbad | hbad
  · simp only [update, hcur, hs, he, hch, if_true, if_pos hbad]
  · have h0 : ¬ (durationMinutesOf (b - a) ≤ 0) := by omega
    simp only [update, hcur, hs, he, hch, if_true, if_neg h0, if_pos hbad]

/-- C3 (witness): staging an end time 1500 minutes after the stored start
aborts the update and leaves the stored row untouched. -/
theorem C3_update_aborts_whole_witness :
    update [sampleRow] 1 [("end_time", PyVal.dt 90000)] "admin" 99
      = (.ok (false, "Downtime duration cannot exceed 24 hours",
          Option.none), [sampleRow]) := by
  have h := C3_update_aborts_whole [sampleRow] 1
    [("end_time", PyVal.dt 90000)] "admin" 99 sampleRow 0 90000 false true
    (by decide) (by decide) (by decide) (by decide)
    (Or.inr (by decide))
  rw [if_neg (by decide)] at h
  exact h

/-- C6 (helper): after `delete`, no row with the target id passes
`get_by_id`'s `is_deleted = 0` filter. -/
theorem find_after_delMark (st : State) (id : Nat) (u : String) (t : Int) :
    (st.map (delMark id u t)).find?
      (fun r => decide (r.downtime_id = id) && !r.is_deleted)
      = Option.none := by
  induction st with
  | nil => rfl
  | cons r rest ih =>
    by_cases h : r.downtime_id = id
    · simp [delMark, h, List.find?, ih]
    · simp [delMark, h, List.find?, ih]

/-- C6 (helper): restoring right after deleting acts on each row as a
single conditional rewrite. -/
theorem resMark_delMark (id : Nat) (u1 u2 : String) (t1 t2 : Int) (r : Row) :
    resMark id u2 t2 (delMark id u1 t1 r)
      = if decide (r.downtime_id = id) then
          { r with is_deleted := false
                   modified_by := some u2
                   modified_date := some t2 }
        else r := by
  by_cases h : r.downtime_id = id
  · simp [delMark, resMark, h]
  · simp [delMark, resMark, h]

/-- C6 (helper): when ids are unique, the record found by `get_by_id`
after a delete-then-restore round trip is the original one with the
soft-delete flag cleared and fresh stamps. -/
theorem find_after_roundtrip (st : State) (id : Nat) (u2 : String) (t2 : Int)
    (r0 : Row)
    (hnd : (st.map Row.downtime_id).Nodup)
    (hcur : get_by_id st id = some r0) :
    (st.map fun r =>
        if decide (r.downtime_id = id) then
          { r with is_deleted := false
                   modified_by := some u2
                   modified_date := some t2 }
        else r).find?
        (fun r => decide (r.downtime_id = id) && !r.is_deleted)
      = some { r0 with is_deleted := false
                       modified_by := some u2
                       modified_date := some t2 } := by
  induction st with
  | nil => simp [get_by_id, List.find?] at hcur
  | cons r rest ih =>
    have hnd' : (rest.map Row.downtime_id).Nodup := (List.nodup_cons.mp hnd).2
    have hnotin : r.downtime_id ∉ rest.map Row.downtime_id :=
      (List.nodup_cons.mp hnd).1
    by_cases h : r.downtime_id = id
    · by_cases hdel : r.is_deleted
      · exfalso
        have hfind : rest.find?
            (fun x => decide (x.downtime_id = id) && !x.is_deleted)
            = some r0 := by
          simpa [get_by_id, List.find?, h, hdel] using hcur
        have hmem := List.mem_of_find?_eq_some hfind
        have hp : r0.downtime_id = id ∧ r0.is_deleted = false := by
          simpa using List.find?_some hfind
        exact hnotin (by
          rw [h, ← hp.1]
          exact List.mem_map_of_mem Row.downtime_id hmem)
      · have hr0 : r0 = r := by
          have : some r = some r0 := by
            simpa [get_by_id, List.find?, h, hdel] using hcur
          exact (Option.some_inj.mp this).symm
        subst hr0
        simp [List.find?, h]
    · have hcur' : get_by_id rest id = some r0 := by
        simpa [get_by_id, List.find?, h] using hcur
      simpa [List.find?, h] using ih hnd' hcur'

/-- C6: `delete` succeeds for every id (already-deleted rows included),
marks every row with that id soft-deleted and stamped, and hides it from
`get_by_id`; a subsequent `restore` succeeds (a no-op on non-deleted rows)
and, for a record that was visible before, `get_by_id` again returns it
with every original field value — `duration_minutes` included — intact,
only the `modified_by`/`modified_date` stamps having changed. -/
theorem C6_delete_restore (st : State) (id : Nat) (u1 u2 : String)
    (t1 t2 : Int)
    (hnd : (st.map Row.downtime_id).Nodup) :
    (deleteEntry st id u1 t1).1 = (true, "Downtime entry deleted")
    ∧ get_by_id (deleteEntry st id u1 t1).2 id = Option.none
    ∧ (∀ r ∈ (deleteEntry st id u1 t1).2, r.downtime_id = id →
        r.is_deleted = true ∧ r.modified_by = some u1
          ∧ r.modified_date = some t1)
    ∧ (restoreEntry (deleteEntry st id u1 t1).2 id u2 t2).1
        = (true, "Downtime entry restored")
    ∧ (∀ r0, get_by_id st id = some r0 →
        get_by_id (restoreEntry (deleteEntry st id u1 t1).2 id u2 t2).2 id
          = some { r0 with modified_by := some u2
                           modified_date := some t2 }) := by
  refine ⟨rfl, ?_, ?_, rfl, ?_⟩
  · exact find_after_delMark st id u1 t1
  · intro r hr hid
    rcases List.mem_map.mp hr with ⟨r', _, rfl⟩
    by_cases h : r'.downtime_id = id
    · simp [delMark, h]
    · exact absurd (by simpa [delMark, h] using hid) h
  · intro r0 hcur
    have hdel : r0.is_deleted = false := by
      have hp : r0.downtime_id = id ∧ r0.is_deleted = false := by
        simpa using List.find?_some hcur
      exact hp.2
    have hmap : (restoreEntry (deleteEntry st id u1 t1).2 id u2 t2).2
        = st.map fun r =>
            if decide (r.downtime_id = id) then
              { r with is_deleted := false
                       modified_by := some u2
                       modified_date := some t2 }
            else r := by
      simp only [restoreEntry, deleteEntry, List.map_map]
      exact List.map_congr_left fun r _ => resMark_delMark id u1 u2 t1 t2 r
    have := find_after_roundtrip st id u2 t2 r0 hnd hcur
    rw [get_by_id, hmap, this]
    cases r0
    simp_all

/-- C6 (witness): the 45-minute sample record survives a delete/restore
round trip with its fields intact and is hidden in between. -/
theorem C6_delete_restore_witness :
    get_by_id (deleteEntry [sampleRow] 1 "adm" 5).2 1 = Option.none
    ∧ get_by_id (restoreEntry (deleteEntry [sampleRow] 1 "adm" 5).2 1
        "adm2" 6).2 1
      = some { sampleRow with modified_by := some "adm2"
                              modified_date := some 6 } := by
  have h := C6_delete_restore [sampleRow] 1 "adm" "adm2" 5 6 (by decide)
  exact ⟨h.2.1, h.2.2.2.2 sampleRow (by decide)⟩

/-- C7: an update every one of whose supplied fields equals the stored
value (time bounds compared as timestamps after parsing) returns
`(True, "No changes detected", None)` and performs no write at all: the
returned table is the input table, so `modified_by` and `modified_date`
are untouched. -/
theorem C7_noop_update (st : State) (id : Nat) (data : Data) (u : String)
    (now : Int) (r : Row)
    (hcur : get_by_id st id = some r)
    (hline : ∀ v, data.lookup "line_id" = some v → v = r.line_id)
    (hcat : ∀ v, data.lookup "category_id" = some v → v = r.category_id)
    (hshift : ∀ v, data.lookup "shift_id" = some v → v = r.shift_id)
    (hst : ∀ v, data.lookup "start_time" = some v →
      timeValOf v = .parsed r.start_time)
    (het : ∀ v, data.lookup "end_time" = some v →
      timeValOf v = .parsed r.end_time)
    (hnotes : ∀ v, data.lookup "reason_notes" = some v → v = r.reason_notes) :
    update st id data u now
      = (.ok (true, "No changes detected", Option.none), st) := by
  have hsT : stagedTime r.start_time "start_time" data
      = .ok (.parsed r.start_time, false) := by
    cases hl : data.lookup "start_time" with
    | none => simp [stagedTime, hl]
    | some v => simp [stagedTime, hl, hst v hl]
  have heT : stagedTime r.end_time "end_time" data
      = .ok (.parsed r.end_time, false) := by
    cases hl : data.lookup "end_time" with
    | none => simp [stagedTime, hl]
    | some v => simp [stagedTime, hl, het v hl]
  have hlS : stageField r.line_id "line_id" data = Option.none := by
    cases hl : data.lookup "line_id" with
    | none => simp [stageField, hl]
    | some v => simp [stageField, hl, hline v hl]
  have hcS : stageField r.category_id "category_id" data = Option.none := by
    cases hl : data.lookup "category_id" with
    | none => simp [stageField, hl]
    | some v => simp [stageField, hl, hcat v hl]
  have hshS : stageField r.shift_id "shift_id" data = Option.none := by
    cases hl : data.lookup "shift_id" with
    | none => simp [stageField, hl]
    | some v => simp [stageField, hl, hshift v hl]
  have hnS : stageField r.reason_notes "reason_notes" data = Option.none := by
    cases hl : data.lookup "reason_notes" with
    | none => simp [stageField, hl]
    | some v => simp [stageField, hl, hnotes v hl]
  simp [update, hcur, hsT, heT, applyUpdate, hlS, hcS, hshS, hnS]

/-- C7 (witness): supplying the stored line id and the stored (empty)
notes text is recognized as a no-op. -/
theorem C7_noop_update_witness :
    update [sampleRow] 1
        [("line_id", PyVal.int 1), ("reason_notes", PyVal.str "")] "adm" 42
      = (.ok (true, "No changes detected", Option.none), [sampleRow]) := by
  refine C7_noop_update [sampleRow] 1 _ "adm" 42 sampleRow (by decide)
    ?_ ?_ ?_ ?_ ?_ ?_ <;>
    intro v hv <;> simp [List.lookup, sampleRow] at hv ⊢ <;> simp [hv]

/-- C4: once the required-field check of `submit_downtime` has passed, the
crew-size gate decides next, before any timestamp or duration validation
(the form's time fields are arbitrary here): a `crew_size` string that is
not a number is rejected with the number message, a numeric one outside
`[1, 10]` with the range message — in both cases nothing reaches the
store and the table is unchanged — while any value in `[1, 10]`
(boundaries included) passes the gate and submission proceeds to `create`. -/
theorem C4_crew_size_gate (st : State) (now : Int) (form : Form)
    (username : String)
    (hreq : submitRequiredOk form = true) :
    (pyInt (crewStr form) = Option.none →
      submit_downtime st now form username
        = ((false, "Crew size must be a number", Option.none), st))
    ∧ (∀ n : Int, pyInt (crewStr form) = some n →
        ((n < 1 ∨ 10 < n) →
          submit_downtime st now form username
            = ((false, "Crew size must be between 1 and 10", Option.none), st))
        ∧ (1 ≤ n → n ≤ 10 →
          submit_downtime st now form username
            = submitAfterCrew st now form username n)) := by
  refine ⟨?_, ?_⟩
  · intro h
    simp [submit_downtime, hreq, h]
  · intro n hn
    refine ⟨?_, ?_⟩
    · intro hbad
      have hb : (decide (n < 1) || decide (10 < n)) = true := by
        rcases hbad with h | h <;> simp [h]
      simp [submit_downtime, hreq, hn, hb]
    · intro h1 h10
      have hb : (decide (n < 1) || decide (10 < n)) = false := by
        simp only [Bool.or_eq_false_iff, decide_eq_false_iff_not, not_lt]
        omega
      simp [submit_downtime, hreq, hn, hb]

/-- A form whose `crew_size` is the out-of-range `0` and whose
`start_time` is not even a parseable timestamp. -/
def formCrew0 : Form :=
  [("facility_id", "1"), ("line_id", "2"), ("category_id", "3"),
   ("start_time", "garbage"), ("end_time", "2024-01-01T09:00"),
   ("crew_size", "0")]

/-- C4 (witness): `crew_size = "0"` is rejected with the range message and
no record is written, even though the start time would itself be invalid —
the crew-size gate fires first. -/
theorem C4_crew_size_gate_witness :
    submit_downtime [] 0 formCrew0 "u"
      = ((false, "Crew size must be between 1 and 10", Option.none), []) :=
  (((C4_crew_size_gate [] 0 formCrew0 "u" (by decide)).2 0
    (by decide)).1 (Or.inl (by decide)))

/-- The overnight shift 22:00-06:00 of the spec's example (times of day in
seconds since midnight). -/
def nightShift : Shift :=
  { shift_id := 1, shift_name := "Night", start_time := 79200
    end_time := 21600, is_overnight := true }

/-- A regular day shift 06:00-22:00. -/
def dayShift : Shift :=
  { shift_id := 2, shift_name := "Day", start_time := 21600
    end_time := 79200, is_overnight := false }

/-- C5: shift detection tests a regular shift by
`start <= timeOfDay < end` and an overnight shift by
`timeOfDay >= start or timeOfDay < end`, returns the first match in
retrieval order, and `None` exactly when no active shift matches; for the
overnight shift 22:00-06:00, the times 23:30 and 05:00 match and 12:00
does not. -/
theorem C5_shift_detection :
    (∀ (shifts : List Shift) (tod : Nat),
        detectShift shifts tod = Option.none ↔
          ∀ sh ∈ shifts, shiftMatches tod sh = false)
    ∧ (∀ (shifts : List Shift) (tod : Nat) (sh : Shift),
        detectShift shifts tod = some sh →
          sh ∈ shifts ∧ shiftMatches tod sh = true)
    ∧ (∀ (pre post : List Shift) (sh : Shift) (tod : Nat),
        shiftMatches tod sh = true →
        (∀ s ∈ pre, shiftMatches tod s = false) →
        detectShift (pre ++ sh :: post) tod = some sh)
    ∧ (∀ (sh : Shift) (tod : Nat),
        shiftMatches tod sh =
          if sh.is_overnight then
            decide (sh.start_time ≤ tod) || decide (tod < sh.end_time)
          else decide (sh.start_time ≤ tod) && decide (tod < sh.end_time))
    ∧ detectShift [nightShift] 84600 = some nightShift
    ∧ detectShift [nightShift] 18000 = some nightShift
    ∧ detectShift [nightShift] 43200 = Option.none := by
  refine ⟨?_, ?_, ?_, fun _ _ => rfl, by decide, by decide, by decide⟩
  · intro shifts tod
    simpa [detectShift] using
      List.find?_eq_none (p := shiftMatches tod) (l := shifts)
  · intro shifts tod sh h
    exact ⟨List.mem_of_find?_eq_some h, List.find?_some h⟩
  · intro pre post sh tod hsh hpre
    induction pre with
    | nil => simp [detectShift, List.find?, hsh]
    | cons s rest ih =>
      have hs : shiftMatches tod s = false := hpre s (List.mem_cons_self s rest)
      have ihh := ih fun x hx => hpre x (List.mem_cons_of_mem s hx)
      simpa [detectShift, List.find?, hs] using ihh

/-- C5 (witness): at 23:30 the day shift 06:00-22:00 does not match, so
detection skips it and returns the overnight shift that does. -/
theorem C5_shift_detection_witness :
    detectShift ([dayShift] ++ nightShift :: []) 84600 = some nightShift :=
  C5_shift_detection.2.2.1 [dayShift] [] nightShift 84600 (by decide)
    (by intro s hs; rcases List.mem_singleton.mp hs with rfl; decide)

/-- C8: for every `group_by` outside the three recognized values,
`get_summary` returns exactly the `'category'` summary — the fallback is a
defined equivalence, not an error. -/
theorem C8_summary_fallback (db : DB) (startDate endDate : Int)
    (group_by : String)
    (h1 : group_by ≠ "category") (h2 : group_by ≠ "facility")
    (h3 : group_by ≠ "line") :
    get_summary db startDate endDate group_by
      = get_summary db startDate endDate "category" := by
  rw [get_summary.eq_def]
  rw [dif_neg h1, if_neg h2, if_neg h3]

/-- A one-record database for the summary witness. -/
def dbSample : DB :=
  { downtimes := [sampleRow]
    categories := [{ category_id := .int 2, category_name := "Mechanical" }]
    lines := [{ line_id := .int 1, facility_id := .int 7
                line_name := "Line A" }]
    facilities := [{ facility_id := .int 7, facility_name := "Plant 1" }] }

/-- C8 (witness): the unrecognized `group_by = 'shift'` (listed in the
docstring but not implemented) produces the category summary. -/
theorem C8_summary_fallback_witness :
    get_summary dbSample 0 10000 "shift"
      = get_summary dbSample 0 10000 "category" :=
  C8_summary_fallback dbSample 0 10000 "shift" (by decide) (by decide)
    (by decide)

/-- C9: a required create field that is present but bound to a falsy value
is reported as missing by name, with nothing written — and the falsy
values of the payload domain are exactly `None`, `False`, `0` and the
empty string, so e.g. `line_id = 0` can never be submitted. -/
theorem C9_falsy_required_field (st : State) (now : Int) (data : Data)
    (f : String)
    (hf : missingRequired data = some f) :
    create st now data
        = (.ok (false, "Missing required field: " ++ f, Option.none), st)
      ∧ ∀ v : PyVal, v.truthy = false ↔
          (v = .none ∨ v = .bool false ∨ v = .int 0 ∨ v = .str "") := by
  refine ⟨?_, ?_⟩
  · simp [create, hf]
  · intro v
    cases v <;> simp [PyVal.truthy]

/-- A create payload whose `line_id` is present but `0`. -/
def dataLine0 : Data :=
  [("line_id", .int 0), ("category_id", .int 2), ("start_time", .dt 0),
   ("end_time", .dt 2700), ("entered_by", .str "u")]

/-- C9 (witness): `line_id = 0` is rejected as the missing field
`line_id` and nothing is written. -/
theorem C9_falsy_required_field_witness :
    create [] 3 dataLine0
        = (.ok (false, "Missing required field: line_id", Option.none), [])
      ∧ PyVal.truthy (.int 0) = false := by
  have h := C9_falsy_required_field [] 3 dataLine0 "line_id" (by decide)
  exact ⟨h.1, (h.2 (.int 0)).mpr (by simp)⟩

/-- Skipping the `crew_size` head entry: every key `create` reads is a
different string. -/
theorem lookup_skip_crew (k : String) (v : PyVal) (d : Data)
    (h : (k == "crew_size") = false) :
    List.lookup k (("crew_size", v) :: d) = List.lookup k d := by
  simp [List.lookup, h]

/-- C10: `create` never reads `crew_size` — prepending any `crew_size`
binding to the payload leaves the whole call (reply and resulting table)
unchanged — and a successful create appends exactly one row holding the
columns `line_id`, `category_id`, `shift_id`, `start_time`, `end_time`,
`duration_minutes`, `reason_notes`, `entered_by`, `entered_date`,
`created_by`, `created_date` and `is_deleted = false` (the `Row` type
lists every persisted column; none stores a crew size). -/
theorem C10_crew_size_not_persisted (st : State) (now : Int) (data : Data)
    (v : PyVal) :
    create st now (("crew_size", v) :: data) = create st now data
    ∧ (∀ a b : Int,
        missingRequired data = Option.none →
        timeValOf (dataGet data "start_time") = .parsed a →
        timeValOf (dataGet data "end_time") = .parsed b →
        1 ≤ durationMinutesOf (b - a) →
        durationMinutesOf (b - a) ≤ 1440 →
        (create st now (("crew_size", v) :: data)).2
          = st ++ [{ downtime_id := nextId st
                     line_id := dataGet data "line_id"
                     category_id := dataGet data "category_id"
                     shift_id := dataGetD data "shift_id" .none
                     start_time := a
                     end_time := b
                     duration_minutes := durationMinutesOf (b - a)
                     reason_notes := dataGetD data "reason_notes" (.str "")
                     entered_by := dataGet data "entered_by"
                     entered_date := now
                     created_by := dataGet data "entered_by"
                     created_date := now
                     is_deleted := false
                     modified_by := Option.none
                     modified_date := Option.none }]) := by
  have hmiss : missingRequired (("crew_size", v) :: data)
      = missingRequired data := by
    simp only [missingRequired, requiredFields, List.find?]
    rw [lookup_skip_crew "line_id" v data (by decide),
      lookup_skip_crew "category_id" v data (by decide),
      lookup_skip_crew "start_time" v data (by decide),
      lookup_skip_crew "end_time" v data (by decide),
      lookup_skip_crew "entered_by" v data (by decide)]
  have hget : ∀ k : String, (k == "crew_size") = false →
      dataGet (("crew_size", v) :: data) k = dataGet data k := by
    intro k hk
    simp only [dataGet]
    rw [lookup_skip_crew k v data hk]
  have hgetD : ∀ (k : String) (dflt : PyVal), (k == "crew_size") = false →
      dataGetD (("crew_size", v) :: data) k dflt = dataGetD data k dflt := by
    intro k dflt hk
    simp only [dataGetD]
    rw [lookup_skip_crew k v data hk]
  have hsame : create st now (("crew_size", v) :: data) = create st now data := by
    simp only [create, hmiss,
      hget "start_time" (by decide), hget "end_time" (by decide),
      hget "line_id" (by decide), hget "category_id" (by decide),
      hget "entered_by" (by decide),
      hgetD "shift_id" PyVal.none (by decide),
      hgetD "reason_notes" (PyVal.str "") (by decide)]
  refine ⟨hsame, ?_⟩
  intro a b hreq hs he hlo hhi
  rw [hsame, create_success_eq st now data a b hreq hs he hlo hhi]

/-- C10 (witness): adding `crew_size = 3` to the 45-minute payload changes
nothing, and the persisted row carries exactly the listed columns. -/
theorem C10_crew_size_not_persisted_witness :
    create [] 11 (("crew_size", PyVal.int 3) :: data45) = create [] 11 data45
    ∧ (create [] 11 (("crew_size", PyVal.int 3) :: data45)).2
        = [{ downtime_id := 1
             line_id := .int 1
             category_id := .int 2
             shift_id := .none
             start_time := 0
             end_time := 2700
             duration_minutes := 45
             reason_notes := .str ""
             entered_by := .str "u"
             entered_date := 11
             created_by := .str "u"
             created_date := 11
             is_deleted := false
             modified_by := Option.none
             modified_date := Option.none }] := by
  have h := C10_crew_size_not_persisted [] 11 data45 (PyVal.int 3)
  refine ⟨h.1, ?_⟩
  have h2 := h.2 0 2700 (by decide) (by decide) (by decide) (by decide)
    (by decide)
  simpa using h2

end DowntimeTracker
